import Mathlib

/-!
Verification development for the flowlib model layer (src/flowlib/model.py).

The Python module is shallowly embedded: Python values that flow through the
model layer (strings, dicts, lists, None, ints) are modelled by the inductive
type PyObj; Python dicts with string keys are association lists whose key
lists are duplicate-free in every state the code constructs; raising an
exception is modelled by the Except monad with the error kind PyErr.
Exception messages are elided: the claims distinguish only the class of the
raised exception (FlowLibException vs built-in TypeError, KeyError,
AttributeError, IndexError).

Keyword-argument calls such as ProcessGroup(**elem_dict) are modelled
explicitly: binding fails with TypeError when the dict carries a key that is
not a parameter name or lacks a required parameter; optional parameters fall
back to their declared defaults.
-/

namespace Flowlib

/-- Model of the Python values handled by the flowlib model layer. -/
inductive PyObj : Type where
  | none : PyObj
  | str (s : String) : PyObj
  | int (n : Int) : PyObj
  | dict (entries : List (String × PyObj)) : PyObj
  | list (items : List PyObj) : PyObj
  deriving Repr

/-- Model of Python structural equality (the == operator) on PyObj values. -/
def pyEq : PyObj → PyObj → Bool
  | .none, .none => true
  | .str a, .str b => a == b
  | .int a, .int b => a == b
  | .dict [], .dict [] => true
  | .dict ((k, v) :: xs), .dict ((k2, v2) :: ys) =>
      k == k2 && pyEq v v2 && pyEq (.dict xs) (.dict ys)
  | .list [], .list [] => true
  | .list (x :: xs), .list (y :: ys) => pyEq x y && pyEq (.list xs) (.list ys)
  | _, _ => false

/-- Model of the Python comparison x == lit against a string literal: string
equality for strings, False for every other value. -/
def pyEqStr (v : PyObj) (lit : String) : Bool :=
  match v with
  | .str t => t == lit
  | _ => false

/-- Model of Python truthiness: None, empty strings, zero and empty
containers are falsy; everything else is truthy. -/
def truthy : PyObj → Bool
  | .none => false
  | .str s => !s.data.isEmpty
  | .int n => n != 0
  | .dict d => !d.isEmpty
  | .list l => !l.isEmpty

/-- Exception kinds raised by the embedded code. FlowLibException is the
single exception class declared by src/flowlib/model.py; the others are the
Python built-ins that the code can raise. Messages are elided. -/
inductive PyErr : Type where
  | flowLibException : PyErr
  | typeError : PyErr
  | keyError : PyErr
  | attributeError : PyErr
  | indexError : PyErr
  deriving DecidableEq, Repr

/-- Model of Python len(). Defined for sized values, TypeError otherwise. -/
def pyLen : PyObj → Except PyErr Nat
  | .str s => .ok s.data.length
  | .dict d => .ok d.length
  | .list l => .ok l.length
  | _ => .error .typeError

/-- Entries of a Python dict with string keys, in insertion order. -/
abbrev Entries : Type := List (String × PyObj)

/-- Lookup of a key in a dict: the value of the first matching entry. -/
def dlookup (d : Entries) (k : String) : Option PyObj :=
  match d with
  | [] => Option.none
  | (k2, v) :: rest => if k2 == k then some v else dlookup rest k

/-- Model of Python dict.get(k): None when the key is absent. -/
def dget (d : Entries) (k : String) : PyObj :=
  (dlookup d k).getD .none

/-- Model of Python dict.get(k, default) with an explicit default. -/
def dgetD (d : Entries) (k : String) (v : PyObj) : PyObj :=
  (dlookup d k).getD v

/-- Removal of a key from a dict, preserving the order of other entries. -/
def derase (d : Entries) (k : String) : Entries :=
  d.filter (fun kv => kv.1 != k)

/-- Model of Python dict item assignment d[k] = v: replaces the value in
place when the key exists, otherwise appends the new entry at the end. -/
def dset (d : Entries) (k : String) (v : PyObj) : Entries :=
  match d with
  | [] => [(k, v)]
  | (k2, w) :: rest => if k2 == k then (k, v) :: rest else (k2, w) :: dset rest k v

/-- True when the dict has a key outside the allowed parameter names; a
keyword call with such a dict raises TypeError (unexpected keyword). -/
def hasUnexpectedKey (d : Entries) (allowed : List String) : Bool :=
  d.any (fun kv => !allowed.contains kv.1)

/-- The hierarchical path delimiter. The source declares the one-character
string constant PG_NAME_DELIMETER = "/" at module level; it is modelled by
its single character. -/
def PG_NAME_DELIMETER : Char := '/'

/-- List-level prefix test for character lists. -/
def charsLead : List Char → List Char → Bool
  | [], _ => true
  | _ :: _, [] => false
  | a :: as, b :: bs => a == b && charsLead as bs

/-- List-level contiguous-substring test for character lists. -/
def charsWithin (sub : List Char) : List Char → Bool
  | [] => sub.isEmpty
  | b :: bs => charsLead sub (b :: bs) || charsWithin sub bs

/-- Model of the Python membership test PG_NAME_DELIMETER in name. For a
string it is the substring test; for a list or dict it is membership of the
one-character delimiter string among the items or keys; TypeError otherwise. -/
def pyInDelim : PyObj → Except PyErr Bool
  | .str s => .ok (charsWithin [PG_NAME_DELIMETER] s.data)
  | .list l =>
      .ok (l.any (fun x =>
        match x with
        | .str t => t.data == [PG_NAME_DELIMETER]
        | _ => false))
  | .dict d => .ok (d.any (fun kv => kv.1.data == [PG_NAME_DELIMETER]))
  | _ => .error .typeError

/-- Split of a character list at every occurrence of the delimiter
character, matching Python str.split with a one-character separator:
the empty list yields one empty piece. -/
def splitChar (c : Char) : List Char → List (List Char)
  | [] => [[]]
  | x :: xs =>
      match splitChar c xs with
      | [] => [[]]
      | piece :: rest =>
          if x == c then [] :: piece :: rest else (x :: piece) :: rest

/-- Model of the Python call s.split(PG_NAME_DELIMETER) on a string. -/
def pySplit (s : String) : List String :=
  (splitChar PG_NAME_DELIMETER s.data).map String.mk

/-- Model of the Connection class: an edge descriptor; immutable after
construction. Fields mirror the constructor parameters of the source. -/
structure Connection : Type where
  name : PyObj
  from_port : PyObj
  to_port : PyObj
  relationships : PyObj

/-- Parameter names of the Connection constructor. -/
def connectionParams : List String :=
  ["name", "from_port", "to_port", "relationships"]

/-- Model of the keyword call Connection(**c): name is required, the other
parameters default to None; an unknown key raises TypeError. -/
def Connection.fromKwargs (d : Entries) : Except PyErr Connection :=
  if hasUnexpectedKey d connectionParams then .error .typeError
  else
    match dlookup d "name" with
    | some n =>
        .ok ⟨n, dgetD d "from_port" .none, dgetD d "to_port" .none,
          dgetD d "relationships" .none⟩
    | Option.none => .error .typeError

/-- One element of the Python list comprehension Connection(**c): the item
must be a dict usable as keyword arguments, TypeError otherwise. -/
def connectionFromObj : PyObj → Except PyErr Connection
  | .dict d => Connection.fromKwargs d
  | _ => .error .typeError

/-- Model of the source line
self.connections = [Connection(**c) for c in connections] if connections else None
shared verbatim by all four FlowElement subclasses: a falsy value yields
None, a truthy list converts every record in order, any other truthy value
fails with TypeError while iterating or unpacking. -/
def connListMap : List PyObj → Except PyErr (List Connection)
  | [] => .ok []
  | c :: rest =>
      match connectionFromObj c with
      | .error e => .error e
      | .ok conn =>
          match connListMap rest with
          | .error e => .error e
          | .ok conns => .ok (conn :: conns)

def convertConnections (v : PyObj) : Except PyErr (Option (List Connection)) :=
  if truthy v then
    match v with
    | .list items =>
        match connListMap items with
        | .ok cs => .ok (some cs)
        | .error e => .error e
    | _ => .error .typeError
  else .ok Option.none

/-- Modelled from the spec: the external nipyapi class ProcessorConfigDTO is
outside this repository; per the spec it is an element configuration holding
a package identifier plus a generic property bag, so its keyword arguments
are retained as an opaque field bag. -/
structure ProcessorConfig : Type where
  package_id : PyObj
  dto_fields : Entries

/-- Modelled from the spec: the external nipyapi class ControllerServiceDTO
is outside this repository; modelled as a package identifier plus a generic
property bag, as for ProcessorConfig. -/
structure ControllerServiceConfig : Type where
  package_id : PyObj
  dto_fields : Entries

/-- Modelled from the spec: the external nipyapi class ReportingTaskDTO is
outside this repository; modelled as a package identifier plus a generic
property bag, as for ProcessorConfig. -/
structure ReportingTaskConfig : Type where
  package_id : PyObj
  dto_fields : Entries

/-- Model of the FlowElement hierarchy: one of ProcessGroup, Processor,
InputPort, OutputPort, with the instance attributes each subclass
constructor assigns. ProcessGroup additionally owns a (initially empty)
elements map from local names to nested FlowElements. -/
inductive FlowElement : Type where
  | processGroup (idAttr parentIdAttr name parent_path typeAttr component_ref
      controllers vars : PyObj) (connections : Option (List Connection))
      (elements : List (String × FlowElement)) : FlowElement
  | processor (idAttr parentIdAttr name parent_path typeAttr : PyObj)
      (config : ProcessorConfig) (connections : Option (List Connection)) : FlowElement
  | inputPort (idAttr parentIdAttr name parent_path typeAttr : PyObj)
      (connections : Option (List Connection)) : FlowElement
  | outputPort (idAttr parentIdAttr name parent_path typeAttr : PyObj)
      (connections : Option (List Connection)) : FlowElement

/-- Closed set of the four FlowElement variants. -/
inductive ElemTag : Type where
  | processGroup : ElemTag
  | processor : ElemTag
  | inputPort : ElemTag
  | outputPort : ElemTag
  deriving DecidableEq, Repr

/-- Variant of a FlowElement value. -/
def FlowElement.variant : FlowElement → ElemTag
  | .processGroup .. => .processGroup
  | .processor .. => .processor
  | .inputPort .. => .inputPort
  | .outputPort .. => .outputPort

/-- The name attribute of a FlowElement. -/
def FlowElement.name : FlowElement → PyObj
  | .processGroup _ _ n _ _ _ _ _ _ _ => n
  | .processor _ _ n _ _ _ _ => n
  | .inputPort _ _ n _ _ _ => n
  | .outputPort _ _ n _ _ _ => n

/-- The parent_path attribute of a FlowElement. -/
def FlowElement.parent_path : FlowElement → PyObj
  | .processGroup _ _ _ pp _ _ _ _ _ _ => pp
  | .processor _ _ _ pp _ _ _ => pp
  | .inputPort _ _ _ pp _ _ => pp
  | .outputPort _ _ _ pp _ _ => pp

/-- The type attribute of a FlowElement (the read-only type property of the
source reads the underlying attribute back). -/
def FlowElement.typeAttr : FlowElement → PyObj
  | .processGroup _ _ _ _ t _ _ _ _ _ => t
  | .processor _ _ _ _ t _ _ => t
  | .inputPort _ _ _ _ t _ => t
  | .outputPort _ _ _ _ t _ => t

/-- The connections attribute of a FlowElement. -/
def FlowElement.connections : FlowElement → Option (List Connection)
  | .processGroup _ _ _ _ _ _ _ _ cs _ => cs
  | .processor _ _ _ _ _ _ cs => cs
  | .inputPort _ _ _ _ _ cs => cs
  | .outputPort _ _ _ _ _ cs => cs

/-- The vars attribute of a ProcessGroup (None for the other variants,
which do not define it). -/
def FlowElement.varsAttr : FlowElement → PyObj
  | .processGroup _ _ _ _ _ _ _ vs _ _ => vs
  | _ => .none

/-- The elements map of a ProcessGroup (empty for the other variants,
which do not define it). -/
def FlowElement.elementsAttr : FlowElement → List (String × FlowElement)
  | .processGroup _ _ _ _ _ _ _ _ _ els => els
  | _ => []

/-- The hidden backing attribute of the id property. -/
def FlowElement.idAttr : FlowElement → PyObj
  | .processGroup i _ _ _ _ _ _ _ _ _ => i
  | .processor i _ _ _ _ _ _ => i
  | .inputPort i _ _ _ _ _ => i
  | .outputPort i _ _ _ _ _ => i

/-- The hidden backing attribute of the parent_id property. -/
def FlowElement.parentIdAttr : FlowElement → PyObj
  | .processGroup _ p _ _ _ _ _ _ _ _ => p
  | .processor _ p _ _ _ _ _ => p
  | .inputPort _ p _ _ _ _ => p
  | .outputPort _ p _ _ _ _ => p

/-- Replacement of the id backing attribute. -/
def FlowElement.withIdAttr : FlowElement → PyObj → FlowElement
  | .processGroup _ p n pp t cr cs vs conns els, v => .processGroup v p n pp t cr cs vs conns els
  | .processor _ p n pp t cfg conns, v => .processor v p n pp t cfg conns
  | .inputPort _ p n pp t conns, v => .inputPort v p n pp t conns
  | .outputPort _ p n pp t conns, v => .outputPort v p n pp t conns

/-- Replacement of the parent_id backing attribute. -/
def FlowElement.withParentIdAttr : FlowElement → PyObj → FlowElement
  | .processGroup i _ n pp t cr cs vs conns els, v => .processGroup i v n pp t cr cs vs conns els
  | .processor i _ n pp t cfg conns, v => .processor i v n pp t cfg conns
  | .inputPort i _ n pp t conns, v => .inputPort i v n pp t conns
  | .outputPort i _ n pp t conns, v => .outputPort i v n pp t conns

/-- Model of the id property getter of FlowElement. -/
def FlowElement.id_get (e : FlowElement) : PyObj :=
  e.idAttr

/-- Model of the id property setter of FlowElement: guarded by the Python
truthiness of the current backing attribute. -/
def FlowElement.id_set (e : FlowElement) (v : PyObj) : Except PyErr FlowElement :=
  if truthy e.idAttr then .error .flowLibException else .ok (e.withIdAttr v)

/-- Model of the parent_id property getter of FlowElement. -/
def FlowElement.parent_id_get (e : FlowElement) : PyObj :=
  e.parentIdAttr

/-- Model of the parent_id property setter of FlowElement. -/
def FlowElement.parent_id_set (e : FlowElement) (v : PyObj) : Except PyErr FlowElement :=
  if truthy e.parentIdAttr then .error .flowLibException else .ok (e.withParentIdAttr v)

/-- Parameter names of the ProcessGroup constructor. -/
def processGroupParams : List String :=
  ["name", "parent_path", "_type", "component_ref", "controllers", "_vars", "connections"]

/-- Model of the keyword call ProcessGroup(**elem_dict). The parameters
name, parent_path, _type and component_ref are required; controllers
defaults to an empty dict, _vars and connections to None. The constructor
body converts the connection records and starts with an empty elements map. -/
def ProcessGroup.fromKwargs (d : Entries) : Except PyErr FlowElement :=
  if hasUnexpectedKey d processGroupParams then .error .typeError
  else
    match dlookup d "name", dlookup d "parent_path", dlookup d "_type",
        dlookup d "component_ref" with
    | some n, some pp, some t, some cr =>
        match convertConnections (dgetD d "connections" .none) with
        | .error e => .error e
        | .ok conns =>
            .ok (.processGroup .none .none n pp t cr
              (dgetD d "controllers" (.dict [])) (dgetD d "_vars" .none) conns [])
    | _, _, _, _ => .error .typeError

/-- Parameter names of the Processor constructor. -/
def processorParams : List String :=
  ["name", "parent_path", "_type", "config", "connections"]

/-- Model of the keyword call Processor(**elem_dict). Besides the result,
the final state of the kwargs dict is returned: the constructor mutates the
config object it received (adding a properties entry when missing and
popping package_id), and the caller record aliases that object, so the
mutation is written back into the config entry of the returned dict. -/
def Processor.fromKwargs (d : Entries) : (Except PyErr FlowElement) × Entries :=
  if hasUnexpectedKey d processorParams then (.error .typeError, d)
  else
    match dlookup d "name", dlookup d "parent_path", dlookup d "_type",
        dlookup d "config" with
    | some n, some pp, some t, some cfg =>
        match cfg with
        | .dict cd =>
            let cd1 := if (dlookup cd "properties").isSome then cd
              else dset cd "properties" (.dict [])
            match dlookup cd1 "package_id" with
            | Option.none => (.error .keyError, dset d "config" (.dict cd1))
            | some pkg =>
                let cd2 := derase cd1 "package_id"
                match convertConnections (dgetD d "connections" .none) with
                | .error e => (.error e, dset d "config" (.dict cd2))
                | .ok conns =>
                    (.ok (.processor .none .none n pp t ⟨pkg, cd2⟩ conns),
                      dset d "config" (.dict cd2))
        | _ => (.error .typeError, d)
    | _, _, _, _ => (.error .typeError, d)

/-- Parameter names of the InputPort and OutputPort constructors. -/
def portParams : List String :=
  ["name", "parent_path", "_type", "connections"]

/-- Model of the keyword call InputPort(**elem_dict). -/
def InputPort.fromKwargs (d : Entries) : Except PyErr FlowElement :=
  if hasUnexpectedKey d portParams then .error .typeError
  else
    match dlookup d "name", dlookup d "parent_path", dlookup d "_type" with
    | some n, some pp, some t =>
        match convertConnections (dgetD d "connections" .none) with
        | .error e => .error e
        | .ok conns => .ok (.inputPort .none .none n pp t conns)
    | _, _, _ => .error .typeError

/-- Model of the keyword call OutputPort(**elem_dict). -/
def OutputPort.fromKwargs (d : Entries) : Except PyErr FlowElement :=
  if hasUnexpectedKey d portParams then .error .typeError
  else
    match dlookup d "name", dlookup d "parent_path", dlookup d "_type" with
    | some n, some pp, some t =>
        match convertConnections (dgetD d "connections" .none) with
        | .error e => .error e
        | .ok conns => .ok (.outputPort .none .none n pp t conns)
    | _, _, _ => .error .typeError

/-- Model of the static factory FlowElement.from_dict. The pair holds the
outcome and the final state of the caller record: the source pops the type
key and stores it back under _type (and, for a process group with truthy
vars, renames vars to _vars) before dispatching, so the caller record is
mutated in place whenever control reaches the dispatch point. In the branch
for a name containing the delimiter the source evaluates the attribute
Flow.PG_DELIMETER while formatting its error message; the Flow class
defines no such attribute, so that branch raises AttributeError instead of
the intended FlowLibException. -/
def FlowElement.from_dict (obj : PyObj) : (Except PyErr FlowElement) × PyObj :=
  match obj with
  | .dict d =>
      if !truthy (dget d "type") then (.error .flowLibException, .dict d)
      else
        let name := dget d "name"
        if !truthy name then (.error .flowLibException, .dict d)
        else
          match pyLen name with
          | .error e => (.error e, .dict d)
          | .ok len0 =>
            if len0 < 1 then (.error .flowLibException, .dict d)
            else
              match pyInDelim name with
              | .error e => (.error e, .dict d)
              | .ok true => (.error .attributeError, .dict d)
              | .ok false =>
                  let t := dget d "type"
                  let d1 := dset (derase d "type") "_type" t
                  if pyEqStr (dget d1 "_type") "process_group" then
                    let d2 :=
                      if truthy (dget d1 "vars") then
                        dset (derase d1 "vars") "_vars" (dget d1 "vars")
                      else d1
                    (ProcessGroup.fromKwargs d2, .dict d2)
                  else if pyEqStr (dget d1 "_type") "processor" then
                    let r := Processor.fromKwargs d1
                    (r.1, .dict r.2)
                  else if pyEqStr (dget d1 "_type") "input_port" then
                    (InputPort.fromKwargs d1, .dict d1)
                  else if pyEqStr (dget d1 "_type") "output_port" then
                    (OutputPort.fromKwargs d1, .dict d1)
                  else (.error .flowLibException, .dict d1)
  | _ => (.error .flowLibException, obj)

/-- Model of the Controller class state: write-once identity attributes, a
name and a configuration. -/
structure Controller : Type where
  idAttr : PyObj
  parentIdAttr : PyObj
  name : PyObj
  config : ControllerServiceConfig

/-- Model of the id property getter of Controller. -/
def Controller.id_get (c : Controller) : PyObj :=
  c.idAttr

/-- Model of the id property setter of Controller, duplicated in the source
with the same truthiness guard as FlowElement. -/
def Controller.id_set (c : Controller) (v : PyObj) : Except PyErr Controller :=
  if truthy c.idAttr then .error .flowLibException else .ok { c with idAttr := v }

/-- Model of the parent_id property getter of Controller. -/
def Controller.parent_id_get (c : Controller) : PyObj :=
  c.parentIdAttr

/-- Model of the parent_id property setter of Controller. -/
def Controller.parent_id_set (c : Controller) (v : PyObj) : Except PyErr Controller :=
  if truthy c.parentIdAttr then .error .flowLibException
  else .ok { c with parentIdAttr := v }

/-- Model of the ReportingTask class state. Mirroring the source, it has an
id backing attribute but no parent_id attribute and no parent_id property. -/
structure ReportingTask : Type where
  idAttr : PyObj
  name : PyObj
  config : ReportingTaskConfig

/-- Model of the id property getter of ReportingTask. -/
def ReportingTask.id_get (r : ReportingTask) : PyObj :=
  r.idAttr

/-- Model of the id property setter of ReportingTask. -/
def ReportingTask.id_set (r : ReportingTask) (v : PyObj) : Except PyErr ReportingTask :=
  if truthy r.idAttr then .error .flowLibException else .ok { r with idAttr := v }

/-- Model of the Flow aggregate state at the time its helper methods are
called: the constructor initializes the scalar attributes to None and the
two maps to empty dicts, and later passes fill them in. The controllers
attribute is modelled at the type its helper methods iterate: a sequence of
Controller records in scan order. -/
structure Flow : Type where
  name : PyObj
  flowlib_version : PyObj
  version : PyObj
  controllers : List Controller
  canvas : PyObj
  component_dir : PyObj
  comments : PyObj
  globalsAttr : PyObj
  raw : PyObj
  loaded_components : Entries
  elements : List (String × FlowElement)

/-- Model of Flow.find_controller_by_name: build the list of controllers
whose name equals the query and take item zero; an empty filter result
raises IndexError. -/
def Flow.find_controller_by_name (f : Flow) (name : PyObj) : Except PyErr Controller :=
  match f.controllers.filter (fun c => pyEq c.name name) with
  | [] => .error .indexError
  | c :: _ => .ok c

/-- The running value of the target variable in Flow.get_parent_element:
the Flow itself, a FlowElement, or Python None after a failed lookup. -/
inductive Target : Type where
  | flowRoot (f : Flow) : Target
  | elem (e : FlowElement) : Target
  | pynone : Target

/-- Model of the attribute access target.elements inside the loop of
Flow.get_parent_element: Flow and ProcessGroup have an elements attribute;
the other FlowElement variants and None raise AttributeError. -/
def Target.elementsOf : Target → Except PyErr (List (String × FlowElement))
  | .flowRoot f => .ok f.elements
  | .elem (.processGroup _ _ _ _ _ _ _ _ _ els) => .ok els
  | .elem _ => .error .attributeError
  | .pynone => .error .attributeError

/-- Lookup in an elements map, first matching entry. -/
def elookup (els : List (String × FlowElement)) (k : String) : Option FlowElement :=
  match els with
  | [] => Option.none
  | (k2, e) :: rest => if k2 == k then some e else elookup rest k

/-- The loop of Flow.get_parent_element: for each remaining path segment,
read target.elements and descend via dict.get, which yields None on a
missing key. -/
def walkSegments (t : Target) : List String → Except PyErr Target
  | [] => .ok t
  | n :: ns =>
      match t.elementsOf with
      | .error e => .error e
      | .ok els =>
          walkSegments
            (match elookup els n with
            | some e => .elem e
            | Option.none => .pynone) ns

/-- Model of Flow.get_parent_element: split the parent_path breadcrumb of
the element at the delimiter and walk every segment after the first from
the Flow root. A non-string parent_path has no split attribute. -/
def Flow.get_parent_element (f : Flow) (e : FlowElement) : Except PyErr Target :=
  match e.parent_path with
  | .str s => walkSegments (.flowRoot f) ((pySplit s).drop 1)
  | _ => .error .attributeError

/-- The discriminator string of each FlowElement variant. -/
def tagString : ElemTag → String
  | .processGroup => "process_group"
  | .processor => "processor"
  | .inputPort => "input_port"
  | .outputPort => "output_port"

/-- A minimal valid element record for each variant: the discriminator, a
name, a parent path, and the variant-required fields (component_ref for a
process group, a config with a package_id for a processor). -/
def mkValidRecord : ElemTag → String → PyObj → PyObj → PyObj → PyObj
  | .processGroup, s, pp, cref, _ =>
      .dict [("type", .str "process_group"), ("name", .str s),
        ("parent_path", pp), ("component_ref", cref)]
  | .processor, s, pp, _, pkg =>
      .dict [("type", .str "processor"), ("name", .str s),
        ("parent_path", pp), ("config", .dict [("package_id", pkg)])]
  | .inputPort, s, pp, _, _ =>
      .dict [("type", .str "input_port"), ("name", .str s), ("parent_path", pp)]
  | .outputPort, s, pp, _, _ =>
      .dict [("type", .str "output_port"), ("name", .str s), ("parent_path", pp)]

/-- A full connection record built from a quadruple of values. -/
def connRecord (q : PyObj × PyObj × PyObj × PyObj) : PyObj :=
  .dict [("name", q.1), ("from_port", q.2.1), ("to_port", q.2.2.1),
    ("relationships", q.2.2.2)]

/-- The Connection object the constructor builds from such a record. -/
def connOf (q : PyObj × PyObj × PyObj × PyObj) : Connection :=
  ⟨q.1, q.2.1, q.2.2.1, q.2.2.2⟩

/-- A Flow state with no controllers and an empty elements map. -/
def emptyFlow : Flow :=
  ⟨.none, .none, .none, [], .none, .none, .none, .none, .none, [], []⟩

/-- A controller with a given name. -/
def svcController (nm : String) : Controller :=
  ⟨.none, .none, .str nm, ⟨.str "org.pkg", []⟩⟩

/-- An input port element at a given name and parent path. -/
def portAt (nm pp : String) : FlowElement :=
  .inputPort .none .none (.str nm) (.str pp) (.str "input_port") Option.none

/-- A controller sharing the name of svcController "svc1" with a different
configuration, to exercise the duplicate-name tie-break. -/
def dupController : Controller :=
  ⟨.none, .none, .str "svc1", ⟨.str "org.other", []⟩⟩

/-- A Flow whose controllers are named svc1 then svc2. -/
def svcFlow : Flow :=
  { emptyFlow with controllers := [svcController "svc1", svcController "svc2"] }

/-- A Flow with two controllers both named svc1. -/
def dupFlow : Flow :=
  { emptyFlow with controllers := [svcController "svc1", dupController] }

/-- A process_group record carrying a nested element list under the
elements key. -/
def pgNestedRecord : PyObj :=
  .dict [("type", .str "process_group"), ("name", .str "g"),
    ("parent_path", .str "root"), ("component_ref", .str "c.yaml"),
    ("elements", .list [.dict [("type", .str "input_port"), ("name", .str "in"),
      ("parent_path", .str "root/g")]])]

theorem string_data_ne_nil (s : String) (h : s ≠ "") : s.data ≠ [] := by
  intro hd
  apply h
  cases s with
  | mk l =>
      cases hd
      rfl

theorem truthy_str_of_ne (s : String) (h : s ≠ "") : truthy (.str s) = true := by
  have hd := string_data_ne_nil s h
  cases hl : s.data with
  | nil => exact absurd hl hd
  | cons a as => simp [truthy, hl]

theorem charsWithin_single_eq_any (c : Char) (l : List Char) :
    charsWithin [c] l = l.any (fun x => c == x) := by
  induction l with
  | nil => simp [charsWithin, List.isEmpty]
  | cons b bs ih => simp [charsWithin, charsLead, ih]

theorem charsWithin_single_eq_false (c : Char) (l : List Char) (h : c ∈ l → False) :
    charsWithin [c] l = false := by
  rw [charsWithin_single_eq_any]
  cases hb : l.any (fun x => c == x) with
  | false => rfl
  | true =>
      exfalso
      obtain ⟨x, hx, hcx⟩ := List.any_eq_true.mp hb
      refine h ?_
      rw [eq_of_beq hcx]
      exact hx

theorem splitChar_of_not_mem (c : Char) (l : List Char) (h : c ∈ l → False) :
    splitChar c l = [l] := by
  induction l with
  | nil => rfl
  | cons x xs ih =>
      have hx : (x == c) = false := by
        simp only [beq_eq_false_iff_ne]
        intro he
        exact h (he ▸ List.mem_cons_self x xs)
      have ih2 := ih (fun hm => h (List.mem_cons_of_mem _ hm))
      simp [splitChar, ih2, hx]

theorem pySplit_of_not_mem (s : String) (h : PG_NAME_DELIMETER ∈ s.data → False) :
    pySplit s = [s] := by
  simp [pySplit, splitChar_of_not_mem PG_NAME_DELIMETER s.data h]

theorem idAttr_withIdAttr (e : FlowElement) (v : PyObj) :
    (e.withIdAttr v).idAttr = v := by
  cases e <;> rfl

theorem parentIdAttr_withParentIdAttr (e : FlowElement) (v : PyObj) :
    (e.withParentIdAttr v).parentIdAttr = v := by
  cases e <;> rfl

theorem walkSegments_append (l1 l2 : List String) (t : Target) :
    walkSegments t (l1 ++ l2) =
      match walkSegments t l1 with
      | .ok t2 => walkSegments t2 l2
      | .error e => .error e := by
  induction l1 generalizing t with
  | nil => simp [walkSegments]
  | cons n ns ih =>
      cases h : t.elementsOf with
      | error e => simp [walkSegments, h]
      | ok els => simp [walkSegments, h, ih]

theorem filter_head?_eq_find? {α : Type} (p : α → Bool) (l : List α) :
    (l.filter p).head? = l.find? p := by
  induction l with
  | nil => rfl
  | cons a as ih => cases hp : p a <;> simp [List.filter_cons, List.find?_cons, hp, ih]

/-- A ReportingTask state as freshly constructed. -/
def sampleReportingTask : ReportingTask :=
  ⟨.none, .str "rt", ⟨.str "org.pkg", []⟩⟩

/-- Claim C1 counterexample: the write-once guard tests Python truthiness of
the backing attribute, so a first assignment of the falsy empty string is
visible on read but does not arm the guard, and a subsequent assignment
attempt succeeds instead of failing with the identity-reassignment error. -/
theorem id_write_once_cex :
    FlowElement.id_set (portAt "x" "") (.str "") =
      .ok ((portAt "x" "").withIdAttr (.str "")) ∧
    FlowElement.id_get ((portAt "x" "").withIdAttr (.str "")) = .str "" ∧
    FlowElement.id_set ((portAt "x" "").withIdAttr (.str "")) (.str "u2") =
      .ok (((portAt "x" "").withIdAttr (.str "")).withIdAttr (.str "u2")) ∧
    ((FlowElement.id_set ((portAt "x" "").withIdAttr (.str "")) (.str "u2") =
      .error .flowLibException) → False) := by
  refine ⟨rfl, rfl, rfl, fun h => ?_⟩
  exact nomatch h

/-- Claim C1 (amended): on FlowElement and Controller the id and parent_id
properties, and on ReportingTask the id property (ReportingTask defines no
parent_id property), behave write-once for truthy values: from an unset
backing attribute the first assignment succeeds and the assigned value is
visible on read, and when the assigned value is truthy every subsequent
assignment attempt fails with the identity-reassignment FlowLibException. -/
theorem id_write_once_truthy (e : FlowElement) (c : Controller) (r : ReportingTask)
    (v w : PyObj) (he : e.idAttr = .none) (hep : e.parentIdAttr = .none)
    (hc : c.idAttr = .none) (hcp : c.parentIdAttr = .none) (hr : r.idAttr = .none) :
    (FlowElement.id_set e v = .ok (e.withIdAttr v) ∧
      FlowElement.id_get (e.withIdAttr v) = v ∧
      (truthy v = true →
        FlowElement.id_set (e.withIdAttr v) w = .error .flowLibException)) ∧
    (FlowElement.parent_id_set e v = .ok (e.withParentIdAttr v) ∧
      FlowElement.parent_id_get (e.withParentIdAttr v) = v ∧
      (truthy v = true →
        FlowElement.parent_id_set (e.withParentIdAttr v) w = .error .flowLibException)) ∧
    (Controller.id_set c v = .ok { c with idAttr := v } ∧
      Controller.id_get { c with idAttr := v } = v ∧
      (truthy v = true →
        Controller.id_set { c with idAttr := v } w = .error .flowLibException)) ∧
    (Controller.parent_id_set c v = .ok { c with parentIdAttr := v } ∧
      Controller.parent_id_get { c with parentIdAttr := v } = v ∧
      (truthy v = true →
        Controller.parent_id_set { c with parentIdAttr := v } w =
          .error .flowLibException)) ∧
    (ReportingTask.id_set r v = .ok { r with idAttr := v } ∧
      ReportingTask.id_get { r with idAttr := v } = v ∧
      (truthy v = true →
        ReportingTask.id_set { r with idAttr := v } w = .error .flowLibException)) := by
  refine ⟨⟨?_, ?_, ?_⟩, ⟨?_, ?_, ?_⟩, ⟨?_, ?_, ?_⟩, ⟨?_, ?_, ?_⟩, ⟨?_, ?_, ?_⟩⟩
  · simp [FlowElement.id_set, he, truthy]
  · simp [FlowElement.id_get, idAttr_withIdAttr]
  · intro hv
    simp [FlowElement.id_set, idAttr_withIdAttr, hv]
  · simp [FlowElement.parent_id_set, hep, truthy]
  · simp [FlowElement.parent_id_get, parentIdAttr_withParentIdAttr]
  · intro hv
    simp [FlowElement.parent_id_set, parentIdAttr_withParentIdAttr, hv]
  · simp [Controller.id_set, hc, truthy]
  · simp [Controller.id_get]
  · intro hv
    simp [Controller.id_set, hv]
  · simp [Controller.parent_id_set, hcp, truthy]
  · simp [Controller.parent_id_get]
  · intro hv
    simp [Controller.parent_id_set, hv]
  · simp [ReportingTask.id_set, hr, truthy]
  · simp [ReportingTask.id_get]
  · intro hv
    simp [ReportingTask.id_set, hv]

/-- Witness for claim C1 (amended) at concrete instances and values. -/
theorem id_write_once_truthy_witness :
    FlowElement.id_set (portAt "p" "") (.str "abc") =
      .ok ((portAt "p" "").withIdAttr (.str "abc")) ∧
    FlowElement.id_get ((portAt "p" "").withIdAttr (.str "abc")) = .str "abc" ∧
    FlowElement.id_set ((portAt "p" "").withIdAttr (.str "abc")) (.str "z") =
      .error .flowLibException ∧
    Controller.id_set { svcController "s" with idAttr := .str "abc" } (.str "z") =
      .error .flowLibException ∧
    ReportingTask.id_set { sampleReportingTask with idAttr := .str "abc" } (.str "z") =
      .error .flowLibException := by
  have h := id_write_once_truthy (portAt "p" "") (svcController "s")
    sampleReportingTask (.str "abc") (.str "z") rfl rfl rfl rfl rfl
  exact ⟨h.1.1, h.1.2.1, h.1.2.2 rfl, h.2.2.1.2.2 rfl, h.2.2.2.2.2.2 rfl⟩

/-- Claim C2: evaluation of the code at the failing input, a record whose
discriminator is not one of the four recognized tags and whose name contains
the delimiter. The claim predicts FlowLibException, but the delimiter check
fires first and its error-message formatting evaluates Flow.PG_DELIMETER, an
attribute the Flow class does not define, so AttributeError is raised. -/
theorem from_dict_unrecognized_tag_slash_name :
    (FlowElement.from_dict (.dict [("type", .str "bogus"), ("name", .str "a/b")])).1 =
      .error .attributeError ∧
    ((FlowElement.from_dict
        (.dict [("type", .str "bogus"), ("name", .str "a/b")])).1 =
      .error .flowLibException → False) := by
  refine ⟨rfl, fun h => ?_⟩
  exact absurd (Except.error.inj h) (by decide)

/-- Claim C3: evaluation of the code at the failing input, a well-formed
processor record whose name contains the delimiter. The source intends to
raise FlowLibException at the delimiter check, but formatting the message
evaluates the undefined attribute Flow.PG_DELIMETER, so the call raises
AttributeError instead. -/
theorem from_dict_delimiter_name :
    (FlowElement.from_dict (.dict [("type", .str "processor"), ("name", .str "a/b"),
        ("parent_path", .str "root"),
        ("config", .dict [("package_id", .str "org.pkg")])])).1 =
      .error .attributeError ∧
    ((FlowElement.from_dict (.dict [("type", .str "processor"), ("name", .str "a/b"),
        ("parent_path", .str "root"),
        ("config", .dict [("package_id", .str "org.pkg")])])).1 =
      .error .flowLibException → False) := by
  refine ⟨rfl, fun h => ?_⟩
  exact absurd (Except.error.inj h) (by decide)

/-- Claim C7: find_controller_by_name builds the sublist of controllers
whose name equals the query under the Python equality, in scan order, and
takes item zero: when some controller matches, the result is the first
match in scan order; when none matches, the item-zero access of the empty
list raises IndexError. -/
theorem find_controller_by_name_first_match (f : Flow) (q : PyObj)
    (hne : f.controllers ≠ []) :
    (∀ c : Controller, f.controllers.find? (fun c2 => pyEq c2.name q) = some c →
      Flow.find_controller_by_name f q = .ok c) ∧
    (f.controllers.find? (fun c2 => pyEq c2.name q) = Option.none →
      Flow.find_controller_by_name f q = .error .indexError) := by
  constructor
  · intro c hc
    have h1 : (f.controllers.filter (fun c2 => pyEq c2.name q)).head? = some c := by
      rw [filter_head?_eq_find?]
      exact hc
    cases hf : f.controllers.filter (fun c2 => pyEq c2.name q) with
    | nil =>
        rw [hf] at h1
        exact nomatch h1
    | cons d rest =>
        rw [hf] at h1
        simp only [List.head?_cons, Option.some.injEq] at h1
        simp [Flow.find_controller_by_name, hf, h1]
  · intro hn
    have h1 : (f.controllers.filter (fun c2 => pyEq c2.name q)).head? = Option.none := by
      rw [filter_head?_eq_find?]
      exact hn
    cases hf : f.controllers.filter (fun c2 => pyEq c2.name q) with
    | nil => simp [Flow.find_controller_by_name, hf]
    | cons d rest =>
        rw [hf] at h1
        exact nomatch h1

/-- Witness for claim C7: with controllers svc1 then svc2 the query svc1
returns the svc1 record and the query svc3 raises IndexError; with two
controllers both named svc1 the first encountered wins. -/
theorem find_controller_by_name_first_match_witness :
    Flow.find_controller_by_name svcFlow (.str "svc1") = .ok (svcController "svc1") ∧
    Flow.find_controller_by_name svcFlow (.str "svc3") = .error .indexError ∧
    Flow.find_controller_by_name dupFlow (.str "svc1") = .ok (svcController "svc1") := by
  refine ⟨(find_controller_by_name_first_match svcFlow (.str "svc1")
      (by simp [svcFlow, emptyFlow])).1 (svcController "svc1") ?_,
    (find_controller_by_name_first_match svcFlow (.str "svc3")
      (by simp [svcFlow, emptyFlow])).2 ?_,
    (find_controller_by_name_first_match dupFlow (.str "svc1")
      (by simp [dupFlow, emptyFlow])).1 (svcController "svc1") ?_⟩
  · simp [svcFlow, emptyFlow, svcController, List.find?, pyEq]
  · simp [svcFlow, emptyFlow, svcController, List.find?, pyEq]
  · simp [dupFlow, emptyFlow, svcController, dupController, List.find?, pyEq]

/-- Claim C9: for an element whose parent_path is a string containing no
delimiter character (including the empty breadcrumb), get_parent_element
returns the Flow object itself: the split yields a single segment, the
loop skips the first segment and never runs, and the initial target is
returned, never None. -/
theorem get_parent_element_single_segment (f : Flow) (e : FlowElement) (s : String)
    (hp : e.parent_path = .str s) (hd : PG_NAME_DELIMETER ∈ s.data → False) :
    Flow.get_parent_element f e = .ok (.flowRoot f) := by
  simp [Flow.get_parent_element, hp, pySplit_of_not_mem s hd, walkSegments]

/-- Witness for claim C9 at a root-level element and at an empty breadcrumb. -/
theorem get_parent_element_single_segment_witness :
    Flow.get_parent_element emptyFlow (portAt "b" "root") = .ok (.flowRoot emptyFlow) ∧
    Flow.get_parent_element emptyFlow (portAt "b" "") = .ok (.flowRoot emptyFlow) := by
  refine ⟨get_parent_element_single_segment emptyFlow (portAt "b" "root") "root" rfl ?_,
    get_parent_element_single_segment emptyFlow (portAt "b" "") "" rfl ?_⟩
  · decide
  · decide

theorem string_isEmpty_false (s : String) (h : s ≠ "") : s.data.isEmpty = false := by
  cases hl : s.data with
  | nil => exact absurd hl (string_data_ne_nil s h)
  | cons a as => rfl

theorem string_len_not_lt_one (s : String) (h : s ≠ "") : (s.data.length < 1) = False := by
  simp only [Nat.lt_one_iff, List.length_eq_zero]
  simp [string_data_ne_nil s h]

theorem string_length_ne_zero (s : String) (h : s ≠ "") : (s.length = 0) = False := by
  have he : s.length = s.data.length := rfl
  rw [he, List.length_eq_zero]
  simp [string_data_ne_nil s h]

/-- Claim C4: for every valid element record — a recognized discriminator, a
non-empty name without the delimiter, a parent path, and the variant-required
fields — from_dict returns exactly one node of the variant selected by the
discriminator, whose type attribute equals the input discriminator and whose
name and parent_path equal the input record values verbatim. -/
theorem from_dict_valid_record (tag : ElemTag) (s : String) (pp cref pkg : PyObj)
    (hs : s ≠ "") (hd : PG_NAME_DELIMETER ∈ s.data → False) :
    ∃ e : FlowElement,
      (FlowElement.from_dict (mkValidRecord tag s pp cref pkg)).1 = .ok e ∧
      e.variant = tag ∧ e.typeAttr = .str (tagString tag) ∧
      e.name = .str s ∧ e.parent_path = pp := by
  have hts : truthy (.str s) = true := truthy_str_of_ne s hs
  have hlen := string_len_not_lt_one s hs
  have hci := charsWithin_single_eq_false PG_NAME_DELIMETER s.data hd
  cases tag with
  | processGroup =>
      refine ⟨.processGroup .none .none (.str s) pp (.str "process_group") cref
        (.dict []) .none Option.none [], ?_, rfl, rfl, rfl, rfl⟩
      simp +decide [FlowElement.from_dict, mkValidRecord, ProcessGroup.fromKwargs,
        dget, dgetD, dlookup, derase, dset, pyLen, pyInDelim, pyEqStr,
        hasUnexpectedKey, convertConnections, processGroupParams, hts, hlen, hci,
        string_length_ne_zero s hs,
        (show truthy (PyObj.str "process_group") = true from rfl),
        (show truthy PyObj.none = false from rfl)]
  | processor =>
      refine ⟨.processor .none .none (.str s) pp (.str "processor")
        ⟨pkg, [("properties", .dict [])]⟩ Option.none, ?_, rfl, rfl, rfl, rfl⟩
      simp +decide [FlowElement.from_dict, mkValidRecord, Processor.fromKwargs,
        dget, dgetD, dlookup, derase, dset, pyLen, pyInDelim, pyEqStr,
        hasUnexpectedKey, convertConnections, processorParams, hts, hlen, hci,
        string_length_ne_zero s hs,
        (show truthy (PyObj.str "processor") = true from rfl),
        (show truthy PyObj.none = false from rfl)]
  | inputPort =>
      refine ⟨.inputPort .none .none (.str s) pp (.str "input_port") Option.none,
        ?_, rfl, rfl, rfl, rfl⟩
      simp +decide [FlowElement.from_dict, mkValidRecord, InputPort.fromKwargs,
        dget, dgetD, dlookup, derase, dset, pyLen, pyInDelim, pyEqStr,
        hasUnexpectedKey, convertConnections, portParams, hts, hlen, hci,
        string_length_ne_zero s hs,
        (show truthy (PyObj.str "input_port") = true from rfl),
        (show truthy PyObj.none = false from rfl)]
  | outputPort =>
      refine ⟨.outputPort .none .none (.str s) pp (.str "output_port") Option.none,
        ?_, rfl, rfl, rfl, rfl⟩
      simp +decide [FlowElement.from_dict, mkValidRecord, OutputPort.fromKwargs,
        dget, dgetD, dlookup, derase, dset, pyLen, pyInDelim, pyEqStr,
        hasUnexpectedKey, convertConnections, portParams, hts, hlen, hci,
        string_length_ne_zero s hs,
        (show truthy (PyObj.str "output_port") = true from rfl),
        (show truthy PyObj.none = false from rfl)]

/-- Witness for claim C4 at a concrete processor record. -/
theorem from_dict_valid_record_witness :
    ∃ e : FlowElement,
      (FlowElement.from_dict
        (mkValidRecord .processor "proc1" (.str "root") .none (.str "org.pkg"))).1 =
        .ok e ∧
      e.variant = .processor ∧ e.typeAttr = .str (tagString .processor) ∧
      e.name = .str "proc1" ∧ e.parent_path = .str "root" :=
  from_dict_valid_record .processor "proc1" (.str "root") .none (.str "org.pkg")
    (by decide) (by decide)

/-- Claim C5 counterexample: from_dict does not recurse into a nested
element list; on a process_group record carrying one, the keyword call
fails with TypeError (elements is not a constructor parameter), so no
ProcessGroup with a recursively built subtree is returned. -/
theorem from_dict_nested_elements_cex :
    (FlowElement.from_dict pgNestedRecord).1 = .error .typeError ∧
    (∀ e : FlowElement, (FlowElement.from_dict pgNestedRecord).1 = .ok e → False) := by
  refine ⟨rfl, fun e h => nomatch h⟩

/-- Claim C5 (amended): for a process_group record the factory captures
truthy variable-override data — the vars entry is renamed to _vars and
stored under the vars attribute of the resulting ProcessGroup, whose own
elements map starts empty — but it does not recurse into nested elements:
a record carrying any nested elements entry fails with TypeError at the
keyword call. -/
theorem from_dict_process_group_vars_no_recursion :
    (∀ (s : String) (pp cref vs : PyObj), s ≠ "" →
      (PG_NAME_DELIMETER ∈ s.data → False) → truthy vs = true →
      (FlowElement.from_dict (.dict [("type", .str "process_group"),
          ("name", .str s), ("parent_path", pp), ("component_ref", cref),
          ("vars", vs)])).1 =
        .ok (.processGroup .none .none (.str s) pp (.str "process_group") cref
          (.dict []) vs Option.none [])) ∧
    (∀ (s : String) (pp cref nested : PyObj), s ≠ "" →
      (PG_NAME_DELIMETER ∈ s.data → False) →
      (FlowElement.from_dict (.dict [("type", .str "process_group"),
          ("name", .str s), ("parent_path", pp), ("component_ref", cref),
          ("elements", nested)])).1 = .error .typeError) := by
  constructor
  · intro s pp cref vs hs hd hv
    have hts : truthy (.str s) = true := truthy_str_of_ne s hs
    have hci := charsWithin_single_eq_false PG_NAME_DELIMETER s.data hd
    simp +decide [FlowElement.from_dict, ProcessGroup.fromKwargs, dget, dgetD,
      dlookup, derase, dset, pyLen, pyInDelim, pyEqStr, hasUnexpectedKey,
      convertConnections, processGroupParams, hts, hci, hv,
      string_len_not_lt_one s hs, string_length_ne_zero s hs,
      (show truthy (PyObj.str "process_group") = true from rfl),
      (show truthy PyObj.none = false from rfl)]
  · intro s pp cref nested hs hd
    have hts : truthy (.str s) = true := truthy_str_of_ne s hs
    have hci := charsWithin_single_eq_false PG_NAME_DELIMETER s.data hd
    simp +decide [FlowElement.from_dict, ProcessGroup.fromKwargs, dget, dgetD,
      dlookup, derase, dset, pyLen, pyInDelim, pyEqStr, hasUnexpectedKey,
      convertConnections, processGroupParams, hts, hci,
      string_len_not_lt_one s hs, string_length_ne_zero s hs,
      (show truthy (PyObj.str "process_group") = true from rfl),
      (show truthy PyObj.none = false from rfl)]

/-- Witness for claim C5 (amended): a concrete record with variable
overrides, and the record with a nested element list. -/
theorem from_dict_process_group_vars_no_recursion_witness :
    (FlowElement.from_dict (.dict [("type", .str "process_group"),
        ("name", .str "g"), ("parent_path", .str "root"),
        ("component_ref", .str "c.yaml"),
        ("vars", .dict [("x", .str "1")])])).1 =
      .ok (.processGroup .none .none (.str "g") (.str "root")
        (.str "process_group") (.str "c.yaml") (.dict [])
        (.dict [("x", .str "1")]) Option.none []) ∧
    (FlowElement.from_dict pgNestedRecord).1 = .error .typeError := by
  refine ⟨(from_dict_process_group_vars_no_recursion).1 "g" (.str "root")
      (.str "c.yaml") (.dict [("x", .str "1")]) (by decide) (by decide) rfl,
    (from_dict_process_group_vars_no_recursion).2 "g" (.str "root")
      (.str "c.yaml") (.list [.dict [("type", .str "input_port"),
        ("name", .str "in"), ("parent_path", .str "root/g")]])
      (by decide) (by decide)⟩

/-- Claim C6 counterexample: on a Flow with an unresolved elements map and
an element whose breadcrumb is root/a/b, the missing segment a is not the
final one, so the next loop iteration reads the elements attribute of None
and the call raises AttributeError instead of returning an absent result. -/
theorem get_parent_element_nonfinal_missing_cex :
    Flow.get_parent_element emptyFlow (portAt "b" "root/a/b") =
      .error .attributeError ∧
    ((Flow.get_parent_element emptyFlow (portAt "b" "root/a/b") = .ok .pynone) →
      False) := by
  refine ⟨rfl, fun h => nomatch h⟩

/-- Claim C6 (amended): walking the delimiter-split breadcrumb from the Flow
root, a missing segment yields an absent result only when it is the final
segment: the loop then ends with target None and returns it; a missing
segment followed by further segments makes the next iteration read the
elements attribute of None, raising AttributeError. -/
theorem get_parent_element_missing_segment :
    (∀ (f : Flow) (e : FlowElement) (s : String) (pre : List String)
      (lst : String) (t : Target) (els : List (String × FlowElement)),
      e.parent_path = .str s →
      (pySplit s).drop 1 = pre ++ [lst] →
      walkSegments (.flowRoot f) pre = .ok t →
      t.elementsOf = .ok els →
      elookup els lst = Option.none →
      Flow.get_parent_element f e = .ok .pynone) ∧
    (∀ (f : Flow) (e : FlowElement) (s : String) (pre : List String)
      (seg : String) (rest : List String) (t : Target)
      (els : List (String × FlowElement)),
      e.parent_path = .str s →
      (pySplit s).drop 1 = pre ++ seg :: rest →
      rest ≠ [] →
      walkSegments (.flowRoot f) pre = .ok t →
      t.elementsOf = .ok els →
      elookup els seg = Option.none →
      Flow.get_parent_element f e = .error .attributeError) := by
  constructor
  · intro f e s pre lst t els hp hsplit hwalk hels hmiss
    simp [Flow.get_parent_element, hp, hsplit, walkSegments_append, hwalk]
    simp [walkSegments, hels, hmiss]
  · intro f e s pre seg rest t els hp hsplit hrest hwalk hels hmiss
    cases rest with
    | nil => exact absurd rfl hrest
    | cons r rs =>
        simp [Flow.get_parent_element, hp, hsplit, walkSegments_append, hwalk]
        simp [walkSegments, hels, hmiss,
          (show Target.pynone.elementsOf =
            (Except.error PyErr.attributeError :
              Except PyErr (List (String × FlowElement))) from rfl)]

/-- Witness for claim C6 (amended): a missing final segment returns None, a
missing non-final segment raises AttributeError. -/
theorem get_parent_element_missing_segment_witness :
    Flow.get_parent_element emptyFlow (portAt "b" "root/a") = .ok .pynone ∧
    Flow.get_parent_element emptyFlow (portAt "c" "root/a/b") =
      .error .attributeError := by
  refine ⟨(get_parent_element_missing_segment).1 emptyFlow (portAt "b" "root/a")
      "root/a" [] "a" (.flowRoot emptyFlow) [] rfl rfl rfl rfl rfl,
    (get_parent_element_missing_segment).2 emptyFlow (portAt "c" "root/a/b")
      "root/a/b" [] "a" ["b"] (.flowRoot emptyFlow) [] rfl rfl ?_ rfl rfl rfl⟩
  simp

/-- Claim C8 counterexample: on a valid input_port record, from_dict renames
the type key to _type in the caller record, so the record after the call
differs from the record before it even though the call succeeds. -/
theorem from_dict_mutates_record_cex :
    (FlowElement.from_dict (.dict [("type", .str "input_port"),
        ("name", .str "in"), ("parent_path", .str "root")])).2 =
      .dict [("name", .str "in"), ("parent_path", .str "root"),
        ("_type", .str "input_port")] ∧
    ((FlowElement.from_dict (.dict [("type", .str "input_port"),
        ("name", .str "in"), ("parent_path", .str "root")])).2 =
      .dict [("type", .str "input_port"), ("name", .str "in"),
        ("parent_path", .str "root")] → False) := by
  refine ⟨rfl, fun h => ?_⟩
  have h2 := congrArg (fun o =>
    match o with
    | PyObj.dict d => (dlookup d "type").isSome
    | _ => false) h
  exact nomatch h2

theorem dlookup_derase_self (d : Entries) (k : String) :
    dlookup (derase d k) k = Option.none := by
  induction d with
  | nil => rfl
  | cons kv rest ih =>
      obtain ⟨ka, v⟩ := kv
      by_cases hk : ka = k
      · simpa [derase, List.filter_cons, hk] using ih
      · simpa [derase, List.filter_cons, hk, dlookup] using ih

theorem dlookup_derase_ne (d : Entries) (k k2 : String) (h : k2 ≠ k) :
    dlookup (derase d k) k2 = dlookup d k2 := by
  induction d with
  | nil => rfl
  | cons kv rest ih =>
      obtain ⟨ka, v⟩ := kv
      simp only [derase] at ih ⊢
      by_cases hk : ka = k
      · subst hk
        simp [List.filter_cons, dlookup, Ne.symm h, ih]
      · simp [List.filter_cons, hk, dlookup, ih]

theorem dlookup_dset_self (d : Entries) (k : String) (v : PyObj) :
    dlookup (dset d k v) k = some v := by
  induction d with
  | nil => simp [dset, dlookup]
  | cons kv rest ih =>
      obtain ⟨ka, w⟩ := kv
      by_cases hk : ka = k
      · simp [dset, hk, dlookup]
      · simp [dset, hk, dlookup, ih]

theorem dlookup_dset_ne (d : Entries) (k k2 : String) (v : PyObj) (h : k2 ≠ k) :
    dlookup (dset d k v) k2 = dlookup d k2 := by
  induction d with
  | nil => simp [dset, dlookup, Ne.symm h]
  | cons kv rest ih =>
      obtain ⟨ka, w⟩ := kv
      by_cases hk : ka = k
      · simp [dset, hk, dlookup, Ne.symm h]
      · simp [dset, hk, dlookup, ih]

theorem dget_dset_self (d : Entries) (k : String) (v : PyObj) :
    dget (dset d k v) k = v := by
  simp [dget, dlookup_dset_self]

theorem dget_dset_ne (d : Entries) (k k2 : String) (v : PyObj) (h : k2 ≠ k) :
    dget (dset d k v) k2 = dget d k2 := by
  simp [dget, dlookup_dset_ne d k k2 v h]

theorem dget_derase_ne (d : Entries) (k k2 : String) (h : k2 ≠ k) :
    dget (derase d k) k2 = dget d k2 := by
  simp [dget, dlookup_derase_ne d k k2 h]

theorem processor_fromKwargs_snd (d : Entries) :
    (Processor.fromKwargs d).2 = d ∨
      ∃ c : PyObj, (Processor.fromKwargs d).2 = dset d "config" c := by
  unfold Processor.fromKwargs
  repeat' (first | split | simp only [])
  all_goals first
    | exact Or.inl rfl
    | exact Or.inl trivial
    | exact Or.inr ⟨_, rfl⟩

/-- Claim C8 (amended): from_dict mutates the caller record exactly when
control reaches the rename before the dispatch: whenever the checks pass —
truthy discriminator, truthy name with a length of at least one and no
delimiter — the returned record has the type key removed and the
discriminator value stored under _type, so it differs from the input record;
every call failing before the rename — a non-mapping input, a falsy or
missing discriminator, a falsy name, a name without a length, or a name
containing the delimiter — returns with the record unchanged. -/
theorem from_dict_record_mutation :
    (∀ s : String, (FlowElement.from_dict (.str s)).2 = .str s) ∧
    (∀ n : Int, (FlowElement.from_dict (.int n)).2 = .int n) ∧
    (∀ l : List PyObj, (FlowElement.from_dict (.list l)).2 = .list l) ∧
    ((FlowElement.from_dict .none).2 = .none) ∧
    (∀ d : Entries, truthy (dget d "type") = false →
      (FlowElement.from_dict (.dict d)).2 = .dict d) ∧
    (∀ d : Entries, truthy (dget d "name") = false →
      (FlowElement.from_dict (.dict d)).2 = .dict d) ∧
    (∀ (d : Entries) (err : PyErr), pyLen (dget d "name") = .error err →
      (FlowElement.from_dict (.dict d)).2 = .dict d) ∧
    (∀ d : Entries, pyInDelim (dget d "name") = .ok true →
      (FlowElement.from_dict (.dict d)).2 = .dict d) ∧
    (∀ (d : Entries) (n : Nat), truthy (dget d "type") = true →
      truthy (dget d "name") = true →
      pyLen (dget d "name") = .ok n → ¬ n < 1 →
      pyInDelim (dget d "name") = .ok false →
      ∃ final : Entries, (FlowElement.from_dict (.dict d)).2 = .dict final ∧
        dlookup final "type" = Option.none ∧
        dget final "_type" = dget d "type" ∧
        PyObj.dict final ≠ PyObj.dict d) := by
  refine ⟨fun s => rfl, fun n => rfl, fun l => rfl, rfl, ?_, ?_, ?_, ?_, ?_⟩
  · intro d h
    simp [FlowElement.from_dict, h]
  · intro d h
    cases ht : truthy (dget d "type") with
    | false => simp [FlowElement.from_dict, ht]
    | true => simp [FlowElement.from_dict, ht, h]
  · intro d err hlen
    cases ht : truthy (dget d "type") with
    | false => simp [FlowElement.from_dict, ht]
    | true =>
        cases hnm : truthy (dget d "name") with
        | false => simp [FlowElement.from_dict, ht, hnm]
        | true => simp [FlowElement.from_dict, ht, hnm, hlen]
  · intro d hdel
    cases ht : truthy (dget d "type") with
    | false => simp [FlowElement.from_dict, ht]
    | true =>
        cases hnm : truthy (dget d "name") with
        | false => simp [FlowElement.from_dict, ht, hnm]
        | true =>
            cases hpl : pyLen (dget d "name") with
            | error e => simp [FlowElement.from_dict, ht, hnm, hpl]
            | ok n =>
                by_cases hn1 : n < 1
                · simp [FlowElement.from_dict, ht, hnm, hpl, hn1]
                · simp [FlowElement.from_dict, ht, hnm, hpl, hn1, hdel]
  · intro d n hty hnm hlen hn hdel
    have htype_ne : dlookup d "type" ≠ Option.none := by
      intro hnone
      have h0 : truthy ((dlookup d "type").getD .none) = true := hty
      rw [hnone] at h0
      simp [truthy] at h0
    simp only [FlowElement.from_dict, hty, hnm, hlen, hdel, hn, Bool.not_true,
      Bool.false_eq_true, if_false, ite_false, if_neg hn]
    set t := dget d "type" with ht
    set d1 := dset (derase d "type") "_type" t with hd1def
    have h1t : dget d1 "_type" = t := by
      rw [hd1def]
      exact dget_dset_self _ _ _
    have h1none : dlookup d1 "type" = Option.none := by
      rw [hd1def]
      rw [dlookup_dset_ne _ _ _ _ (by decide : ("type" : String) ≠ "_type")]
      exact dlookup_derase_self d "type"
    have hne_of : ∀ fin : Entries, dlookup fin "type" = Option.none →
        PyObj.dict fin ≠ PyObj.dict d := by
      intro fin hf hEq
      apply htype_ne
      have h2 : fin = d := by injection hEq
      rw [← h2]
      exact hf
    by_cases hpg : pyEqStr (dget d1 "_type") "process_group" = true
    · by_cases hv : truthy (dget d1 "vars") = true
      · refine ⟨dset (derase d1 "vars") "_vars" (dget d1 "vars"), ?_, ?_, ?_, ?_⟩
        · simp [hpg, hv]
        · rw [dlookup_dset_ne _ _ _ _ (by decide : ("type" : String) ≠ "_vars"),
            dlookup_derase_ne _ _ _ (by decide : ("type" : String) ≠ "vars")]
          exact h1none
        · rw [dget_dset_ne _ _ _ _ (by decide : ("_type" : String) ≠ "_vars"),
            dget_derase_ne _ _ _ (by decide : ("_type" : String) ≠ "vars"), h1t]
        · refine hne_of _ ?_
          rw [dlookup_dset_ne _ _ _ _ (by decide : ("type" : String) ≠ "_vars"),
            dlookup_derase_ne _ _ _ (by decide : ("type" : String) ≠ "vars")]
          exact h1none
      · exact ⟨d1, by simp [hpg, hv], h1none, h1t, hne_of _ h1none⟩
    · by_cases hpr : pyEqStr (dget d1 "_type") "processor" = true
      · rcases processor_fromKwargs_snd d1 with hsnd | ⟨c, hsnd⟩
        · exact ⟨d1, by simp [hpg, hpr, hsnd], h1none, h1t, hne_of _ h1none⟩
        · refine ⟨dset d1 "config" c, ?_, ?_, ?_, ?_⟩
          · simp [hpg, hpr, hsnd]
          · rw [dlookup_dset_ne _ _ _ _ (by decide : ("type" : String) ≠ "config")]
            exact h1none
          · rw [dget_dset_ne _ _ _ _ (by decide : ("_type" : String) ≠ "config"), h1t]
          · refine hne_of _ ?_
            rw [dlookup_dset_ne _ _ _ _ (by decide : ("type" : String) ≠ "config")]
            exact h1none
      · by_cases hin : pyEqStr (dget d1 "_type") "input_port" = true
        · exact ⟨d1, by simp [hpg, hpr, hin], h1none, h1t, hne_of _ h1none⟩
        · by_cases hout : pyEqStr (dget d1 "_type") "output_port" = true
          · exact ⟨d1, by simp [hpg, hpr, hin, hout], h1none, h1t, hne_of _ h1none⟩
          · exact ⟨d1, by simp [hpg, hpr, hin, hout], h1none, h1t, hne_of _ h1none⟩

/-- Witness for claim C8 (amended): unchanged records for a missing
discriminator, a name without a length, and a delimiter-containing name;
and the mutated record of a dispatch-reaching call. -/
theorem from_dict_record_mutation_witness :
    (FlowElement.from_dict (.dict [("name", .str "x")])).2 =
      .dict [("name", .str "x")] ∧
    (FlowElement.from_dict (.dict [("type", .str "t"), ("name", .int 5)])).2 =
      .dict [("type", .str "t"), ("name", .int 5)] ∧
    (FlowElement.from_dict (.dict [("type", .str "t"),
        ("name", .str "a/b")])).2 =
      .dict [("type", .str "t"), ("name", .str "a/b")] ∧
    (∃ final : Entries,
      (FlowElement.from_dict (.dict [("type", .str "input_port"),
          ("name", .str "in"), ("parent_path", .str "root")])).2 = .dict final ∧
      dlookup final "type" = Option.none ∧
      dget final "_type" =
        dget [("type", .str "input_port"), ("name", .str "in"),
          ("parent_path", .str "root")] "type" ∧
      PyObj.dict final ≠ PyObj.dict [("type", .str "input_port"),
        ("name", .str "in"), ("parent_path", .str "root")]) := by
  refine ⟨(from_dict_record_mutation).2.2.2.2.1 [("name", .str "x")] rfl,
    (from_dict_record_mutation).2.2.2.2.2.2.1
      [("type", .str "t"), ("name", .int 5)] .typeError rfl,
    (from_dict_record_mutation).2.2.2.2.2.2.2.1
      [("type", .str "t"), ("name", .str "a/b")] rfl,
    (from_dict_record_mutation).2.2.2.2.2.2.2.2
      [("type", .str "input_port"), ("name", .str "in"),
        ("parent_path", .str "root")] 2 rfl rfl rfl (by decide) rfl⟩

theorem connListMap_quads (quads : List (PyObj × PyObj × PyObj × PyObj)) :
    connListMap (quads.map connRecord) = .ok (quads.map connOf) := by
  induction quads with
  | nil => rfl
  | cons q qs ih =>
      simp +decide [connListMap, connRecord, connectionFromObj,
        Connection.fromKwargs, hasUnexpectedKey, connectionParams, dlookup,
        dgetD, connOf, ih]

theorem convertConnections_quads (quads : List (PyObj × PyObj × PyObj × PyObj))
    (hq : quads ≠ []) :
    convertConnections (.list (quads.map connRecord)) =
      .ok (some (quads.map connOf)) := by
  cases quads with
  | nil => exact absurd rfl hq
  | cons q qs =>
      have h1 := connListMap_quads (q :: qs)
      simp only [List.map_cons] at h1 ⊢
      have ht : truthy (PyObj.list (connRecord q :: List.map connRecord qs)) =
        true := rfl
      simp [convertConnections, ht, h1]

/-- Claim C10: in each of the four variant constructors, an omitted or empty
connections argument leaves the connections attribute as None rather than an
empty sequence, while a supplied non-empty list of connection records is
converted into Connection objects in order. -/
theorem constructor_connections :
    (∀ n pp t cref : PyObj,
      ProcessGroup.fromKwargs [("name", n), ("parent_path", pp), ("_type", t),
          ("component_ref", cref)] =
        .ok (.processGroup .none .none n pp t cref (.dict []) .none
          Option.none []) ∧
      ProcessGroup.fromKwargs [("name", n), ("parent_path", pp), ("_type", t),
          ("component_ref", cref), ("connections", .list [])] =
        .ok (.processGroup .none .none n pp t cref (.dict []) .none
          Option.none []) ∧
      (∀ quads : List (PyObj × PyObj × PyObj × PyObj), quads ≠ [] →
        ProcessGroup.fromKwargs [("name", n), ("parent_path", pp), ("_type", t),
            ("component_ref", cref),
            ("connections", .list (quads.map connRecord))] =
          .ok (.processGroup .none .none n pp t cref (.dict []) .none
            (some (quads.map connOf)) []))) ∧
    (∀ n pp t pkg : PyObj,
      (Processor.fromKwargs [("name", n), ("parent_path", pp), ("_type", t),
          ("config", .dict [("package_id", pkg)])]).1 =
        .ok (.processor .none .none n pp t
          ⟨pkg, [("properties", .dict [])]⟩ Option.none) ∧
      (Processor.fromKwargs [("name", n), ("parent_path", pp), ("_type", t),
          ("config", .dict [("package_id", pkg)]),
          ("connections", .list [])]).1 =
        .ok (.processor .none .none n pp t
          ⟨pkg, [("properties", .dict [])]⟩ Option.none) ∧
      (∀ quads : List (PyObj × PyObj × PyObj × PyObj), quads ≠ [] →
        (Processor.fromKwargs [("name", n), ("parent_path", pp), ("_type", t),
            ("config", .dict [("package_id", pkg)]),
            ("connections", .list (quads.map connRecord))]).1 =
          .ok (.processor .none .none n pp t
            ⟨pkg, [("properties", .dict [])]⟩ (some (quads.map connOf))))) ∧
    (∀ n pp t : PyObj,
      InputPort.fromKwargs [("name", n), ("parent_path", pp), ("_type", t)] =
        .ok (.inputPort .none .none n pp t Option.none) ∧
      InputPort.fromKwargs [("name", n), ("parent_path", pp), ("_type", t),
          ("connections", .list [])] =
        .ok (.inputPort .none .none n pp t Option.none) ∧
      (∀ quads : List (PyObj × PyObj × PyObj × PyObj), quads ≠ [] →
        InputPort.fromKwargs [("name", n), ("parent_path", pp), ("_type", t),
            ("connections", .list (quads.map connRecord))] =
          .ok (.inputPort .none .none n pp t (some (quads.map connOf))))) ∧
    (∀ n pp t : PyObj,
      OutputPort.fromKwargs [("name", n), ("parent_path", pp), ("_type", t)] =
        .ok (.outputPort .none .none n pp t Option.none) ∧
      OutputPort.fromKwargs [("name", n), ("parent_path", pp), ("_type", t),
          ("connections", .list [])] =
        .ok (.outputPort .none .none n pp t Option.none) ∧
      (∀ quads : List (PyObj × PyObj × PyObj × PyObj), quads ≠ [] →
        OutputPort.fromKwargs [("name", n), ("parent_path", pp), ("_type", t),
            ("connections", .list (quads.map connRecord))] =
          .ok (.outputPort .none .none n pp t (some (quads.map connOf))))) := by
  refine ⟨fun n pp t cref => ⟨?_, ?_, fun quads hq => ?_⟩,
    fun n pp t pkg => ⟨?_, ?_, fun quads hq => ?_⟩,
    fun n pp t => ⟨?_, ?_, fun quads hq => ?_⟩,
    fun n pp t => ⟨?_, ?_, fun quads hq => ?_⟩⟩
  · simp +decide [ProcessGroup.fromKwargs, hasUnexpectedKey, processGroupParams,
      dlookup, dgetD, convertConnections]
  · simp +decide [ProcessGroup.fromKwargs, hasUnexpectedKey, processGroupParams,
      dlookup, dgetD, convertConnections]
  · simp +decide [ProcessGroup.fromKwargs, hasUnexpectedKey, processGroupParams,
      dlookup, dgetD, convertConnections_quads quads hq]
  · simp +decide [Processor.fromKwargs, hasUnexpectedKey, processorParams,
      dlookup, dgetD, derase, dset, convertConnections]
  · simp +decide [Processor.fromKwargs, hasUnexpectedKey, processorParams,
      dlookup, dgetD, derase, dset, convertConnections]
  · simp +decide [Processor.fromKwargs, hasUnexpectedKey, processorParams,
      dlookup, dgetD, derase, dset, convertConnections_quads quads hq]
  · simp +decide [InputPort.fromKwargs, hasUnexpectedKey, portParams,
      dlookup, dgetD, convertConnections]
  · simp +decide [InputPort.fromKwargs, hasUnexpectedKey, portParams,
      dlookup, dgetD, convertConnections]
  · simp +decide [InputPort.fromKwargs, hasUnexpectedKey, portParams,
      dlookup, dgetD, convertConnections_quads quads hq]
  · simp +decide [OutputPort.fromKwargs, hasUnexpectedKey, portParams,
      dlookup, dgetD, convertConnections]
  · simp +decide [OutputPort.fromKwargs, hasUnexpectedKey, portParams,
      dlookup, dgetD, convertConnections]
  · simp +decide [OutputPort.fromKwargs, hasUnexpectedKey, portParams,
      dlookup, dgetD, convertConnections_quads quads hq]

/-- Witness for claim C10: concrete constructions with the connections
argument omitted, empty, and a two-record list converted in order. -/
theorem constructor_connections_witness :
    InputPort.fromKwargs [("name", .str "in"), ("parent_path", .str "root"),
        ("_type", .str "input_port")] =
      .ok (.inputPort .none .none (.str "in") (.str "root")
        (.str "input_port") Option.none) ∧
    OutputPort.fromKwargs [("name", .str "out"), ("parent_path", .str "root"),
        ("_type", .str "output_port"), ("connections", .list [])] =
      .ok (.outputPort .none .none (.str "out") (.str "root")
        (.str "output_port") Option.none) ∧
    ProcessGroup.fromKwargs [("name", .str "g"), ("parent_path", .str "root"),
        ("_type", .str "process_group"), ("component_ref", .str "c.yaml"),
        ("connections", .list ([((.str "c1" : PyObj), (.none : PyObj),
            (.none : PyObj), (.none : PyObj)),
          ((.str "c2" : PyObj), (.str "p" : PyObj), (.none : PyObj),
            (.none : PyObj))].map connRecord))] =
      .ok (.processGroup .none .none (.str "g") (.str "root")
        (.str "process_group") (.str "c.yaml") (.dict []) .none
        (some [⟨.str "c1", .none, .none, .none⟩,
          ⟨.str "c2", .str "p", .none, .none⟩]) []) := by
  refine ⟨((constructor_connections).2.2.1 (.str "in") (.str "root")
      (.str "input_port")).1,
    ((constructor_connections).2.2.2 (.str "out") (.str "root")
      (.str "output_port")).2.1,
    ((constructor_connections).1 (.str "g") (.str "root")
      (.str "process_group") (.str "c.yaml")).2.2
      [((.str "c1" : PyObj), (.none : PyObj), (.none : PyObj), (.none : PyObj)),
        ((.str "c2" : PyObj), (.str "p" : PyObj), (.none : PyObj),
          (.none : PyObj))] (by simp)⟩

end Flowlib
